import Mathlib

/-!
# Verification of the EU-sanctions explorer core (`sanctions.py`)

Shallow embedding of the fetch-and-parse pipeline and the filter/query
surface of `sanctions.py`:

* string helpers model the Python string methods the source relies on
  (`str.lower`, `str.strip`, `str.title`) for the ASCII fragment;
* an XML element tree models the `xml.etree.ElementTree` values the
  extractor walks (`findall(".//ns:tag")`, `find("ns:tag")`, `get`,
  `findtext`, `.text`);
* `lade_sanktionen` is the record extractor, including the final
  `pd.DataFrame` / `fillna` step (which raises `KeyError` on an empty
  record list, since the empty DataFrame has no `Land` column);
* `fetch_xml_resolve` is the enclosure-scanning loop of `fetch_xml`;
* the filter/query surface models the country filter, the type filter
  with its option recomputation and soft reset, and the name search
  (pandas `str.contains(search, case=False)` defaults to `regex=True`,
  so the search string is a regular expression; we model the
  metacharacter-free-plus-dot fragment of Python `re.search` with
  `re.IGNORECASE`).
-/

namespace Sanctions

/-! ## Python string primitives (ASCII fragment) -/

/-- Python `str.isspace` characters relevant to `str.strip()` (ASCII). -/
def pyIsSpace (c : Char) : Bool :=
  c = ' ' || c = '\t' || c = '\n' || c = '\r' || c = '\x0b' || c = '\x0c'

/-- Python `str.strip()`: drop leading and trailing whitespace. -/
def pyStrip (s : String) : String :=
  ⟨((s.data.dropWhile pyIsSpace).reverse.dropWhile pyIsSpace).reverse⟩

/-- Python `str.lower()` (ASCII fragment). -/
def lowerStr (s : String) : String :=
  ⟨s.data.map Char.toLower⟩

/-- Helper for Python `str.title()`: the flag records whether the previous
character was cased (a letter); a letter after a non-letter is uppercased,
a letter after a letter is lowercased. -/
def titleAux : Bool → List Char → List Char
  | _, [] => []
  | prevCased, c :: cs =>
    if c.isAlpha then
      (if prevCased then c.toLower else c.toUpper) :: titleAux true cs
    else
      c :: titleAux false cs

/-- Python `str.title()` (ASCII fragment). -/
def pyTitle (s : String) : String :=
  ⟨titleAux false s.data⟩

/-- Case-insensitive literal substring containment: the spec's notion of
"name contains the string as a case-insensitive substring". -/
def containsCI (hay needle : String) : Bool :=
  let h := hay.data.map Char.toLower
  let n := needle.data.map Char.toLower
  (List.range (h.length + 1)).any (fun i => n.isPrefixOf (h.drop i))

/-- One step of Python `re` matching at a fixed position, for patterns made
of literal characters and the `.` wildcard, under `re.IGNORECASE`. -/
def matchesAt : List Char → List Char → Bool
  | [], _ => true
  | _ :: _, [] => false
  | p :: ps, c :: cs =>
    (p = '.' || p.toLower = c.toLower) && matchesAt ps cs

/-- Python `re.search(pat, hay, re.IGNORECASE)` (as used by pandas
`Series.str.contains(pat, case=False)` with its default `regex=True`),
modelled for patterns built from literal characters and the `.` wildcard. -/
def pyRegexSearch (pat hay : String) : Bool :=
  (List.range (hay.data.length + 1)).any (fun i => matchesAt pat.data (hay.data.drop i))

/-- Regex metacharacters of Python `re`; a pattern avoiding all of them is
matched purely literally. -/
def isRegexMeta (c : Char) : Bool :=
  c = '.' || c = '^' || c = '$' || c = '*' || c = '+' || c = '?' ||
  c = '\x7b' || c = '\x7d' || c = '[' || c = ']' || c = '(' || c = ')' ||
  c = '|' || c = '\\'

/-! ## XML element model (`xml.etree.ElementTree`) -/

/-- An XML element: tag (with the `\x7buri\x7d` namespace prefix ElementTree
uses), attributes, text, children. -/
inductive XmlElem where
  | mk (tag : String) (attrs : List (String × String)) (text : Option String)
      (children : List XmlElem)

def XmlElem.tag : XmlElem → String
  | .mk t _ _ _ => t

def XmlElem.attrs : XmlElem → List (String × String)
  | .mk _ a _ _ => a

def XmlElem.text : XmlElem → Option String
  | .mk _ _ x _ => x

def XmlElem.children : XmlElem → List XmlElem
  | .mk _ _ _ cs => cs

/-- `Element.get(name)`: attribute lookup (first binding wins). -/
def getAttr (e : XmlElem) (name : String) : Option String :=
  (e.attrs.find? (fun p => p.1 = name)).map (·.2)

/-- `Element.find("ns:tag")`: first direct child with the given tag. -/
def findChild (e : XmlElem) (tag : String) : Option XmlElem :=
  e.children.find? (fun c => c.tag = tag)

mutual

/-- All proper descendants of an element, in document (preorder) order. -/
def XmlElem.descendants : XmlElem → List XmlElem
  | .mk _ _ _ cs => descList cs

/-- Preorder traversal of a forest of elements. -/
def descList : List XmlElem → List XmlElem
  | [] => []
  | c :: cs => c :: (XmlElem.descendants c ++ descList cs)

end

/-- The namespace-qualified tag ElementTree matches for prefix `ns`. -/
def nsTag (t : String) : String :=
  "\x7bhttp://eu.europa.ec/fpi/fsd/export\x7d" ++ t

/-- `root.findall(".//ns:sanctionEntity", ns)`: every descendant with the
namespaced `sanctionEntity` tag, in document order. -/
def findEntities (root : XmlElem) : List XmlElem :=
  root.descendants.filter (fun e => e.tag = nsTag "sanctionEntity")

/-! ## The record extractor (`lade_sanktionen`) -/

/-- One row of the extracted table. Field names follow the dict keys of the
source (`EU-Referenznummer`, `Name`, `Typ`, `Land`, `Publikationsdatum`,
`Programm`, `Bemerkung`, `Publikations-URL`); the spec calls them
`reference_id`, `name`, `subject_type`, `country`, `publication_date`,
`programme`, `remark`, `publication_url`. -/
structure SanctionRecord where
  euRef : String
  name : String
  typ : String
  land : String
  pubDate : String
  programm : String
  bemerkung : String
  pubUrl : String
deriving DecidableEq, Repr

/-- `entity.get("euReferenceNumber", "Unbekannt")`. -/
def extractEuRef (entity : XmlElem) : String :=
  (getAttr entity "euReferenceNumber").getD "Unbekannt"

/-- `name_alias.get("wholeName", "Unbekannt") if name_alias is not None else "Unbekannt"`. -/
def extractName (entity : XmlElem) : String :=
  match findChild entity (nsTag "nameAlias") with
  | some na => (getAttr na "wholeName").getD "Unbekannt"
  | none => "Unbekannt"

/-- The classification chain applied to the subject-type code:
`"Person" if code.lower() == "person" else "Entity" if code.lower() == "enterprise" else code.title()`. -/
def classifyCode (code : String) : String :=
  if lowerStr code = "person" then "Person"
  else if lowerStr code = "enterprise" then "Entity"
  else pyTitle code

/-- `stype.get("code", "Unbekannt") if stype is not None else "Unbekannt"`. -/
def extractCode (entity : XmlElem) : String :=
  match findChild entity (nsTag "subjectType") with
  | some s => (getAttr s "code").getD "Unbekannt"
  | none => "Unbekannt"

/-- The `subject_type` field. -/
def extractTyp (entity : XmlElem) : String :=
  classifyCode (extractCode entity)

/-- `reg.get("publicationDate", "") if reg is not None else ""`. -/
def extractPubDate (entity : XmlElem) : String :=
  match findChild entity (nsTag "regulation") with
  | some r => (getAttr r "publicationDate").getD ""
  | none => ""

/-- `reg.get("programme", "Unbekannt") if reg is not None else "Unbekannt"`. -/
def extractProgramm (entity : XmlElem) : String :=
  match findChild entity (nsTag "regulation") with
  | some r => (getAttr r "programme").getD "Unbekannt"
  | none => "Unbekannt"

/-- `name_alias.findtext("ns:remark", default="") if name_alias is not None else ""`;
`findtext` returns `""` (not the default) when the element exists but has no
text. -/
def extractBemerkung (entity : XmlElem) : String :=
  match findChild entity (nsTag "nameAlias") with
  | some na =>
    match findChild na (nsTag "remark") with
    | some rem => rem.text.getD ""
    | none => ""
  | none => ""

/-- The `pub_url` block: `""` unless the regulation has a `publicationUrl`
child whose text is truthy (present and non-empty), in which case the text is
stripped. -/
def extractPubUrl (entity : XmlElem) : String :=
  match findChild entity (nsTag "regulation") with
  | some r =>
    match findChild r (nsTag "publicationUrl") with
    | some u =>
      match u.text with
      | some t => if t ≠ "" then pyStrip t else ""
      | none => ""
    | none => ""
  | none => ""

/-- The `country` block: `"Unbekannt"` unless the entity has an `address`
child whose `countryDescription` attribute strips to something non-empty, in
which case that stripped value is title-cased. -/
def extractLand (entity : XmlElem) : String :=
  match findChild entity (nsTag "address") with
  | some addr =>
    let desc := pyStrip ((getAttr addr "countryDescription").getD "")
    if desc ≠ "" then pyTitle desc else "Unbekannt"
  | none => "Unbekannt"

/-- The dict appended to `sanktionen` for one `sanctionEntity`. -/
def extractEntity (entity : XmlElem) : SanctionRecord :=
  { euRef := extractEuRef entity
    name := extractName entity
    typ := extractTyp entity
    land := extractLand entity
    pubDate := extractPubDate entity
    programm := extractProgramm entity
    bemerkung := extractBemerkung entity
    pubUrl := extractPubUrl entity }

/-- How `lade_sanktionen` can fail: `ET.parse` raises `ParseError` on an
unparsable byte stream, and `df['Land']` raises `KeyError` when the record
list is empty (then `pd.DataFrame([])` has no `Land` column). -/
inductive LadeError where
  | parseError
  | keyError
deriving DecidableEq, Repr

/-- `lade_sanktionen(xml_content)`. The input byte stream is modelled by its
parse result: `none` stands for bytes `ET.parse` rejects, `some root` for a
well-formed document with root element `root`. The body maps `extractEntity`
over `findall(".//ns:sanctionEntity")` in document order; the final
`df['Land'] = df['Land'].fillna('Unbekannt')` raises `KeyError` on the empty
record list and otherwise changes nothing (every `Land` value is a string,
never NaN). -/
def lade_sanktionen (input : Option XmlElem) : Except LadeError (List SanctionRecord) :=
  match input with
  | none => .error .parseError
  | some root =>
    let sanktionen := (findEntities root).map extractEntity
    if sanktionen.isEmpty then .error .keyError
    else .ok sanktionen

/-! ## The feed resolver (the enclosure-scanning loop of `fetch_xml`) -/

/-- One feed enclosure as `feedparser` exposes it: `enc.get('type')` and
`enc.get('href')` may each be absent. -/
structure Enclosure where
  type : Option String
  href : Option String
deriving DecidableEq, Repr

/-- One feed entry: `entry.get('enclosures', [])`. -/
structure FeedEntry where
  enclosures : List Enclosure
deriving DecidableEq, Repr

/-- The inner loop over one entry's enclosures: it stops (`break`) at the
first enclosure whose `type` is `'application/xml'` and yields that
enclosure's `href`; `none` when the entry has no XML-typed enclosure. -/
def entryCandidate (e : FeedEntry) : Option (Option String) :=
  (e.enclosures.find? (fun enc => enc.type = some "application/xml")).map (·.href)

/-- Python truthiness of `xml_url`: a present, non-empty string. -/
def truthyHref : Option String → Bool
  | some s => s ≠ ""
  | none => false

/-- The href an entry contributes: the first XML-typed enclosure's href when
that href is truthy, `none` otherwise (an absent or falsy href makes the
outer `if xml_url: break` guard fail, so scanning moves to the next entry). -/
def goodCandidate (e : FeedEntry) : Option String :=
  match entryCandidate e with
  | some h => if truthyHref h then h else none
  | none => none

/-- The error message of `raise RuntimeError("❌ Kein gültiger XML-Link im
Feed gefunden!")` (the spec's `FeedResolutionError`). -/
def noXmlLinkMsg : String := "❌ Kein gültiger XML-Link im Feed gefunden!"

/-- The double loop of `fetch_xml` over `feed.entries`, up to the `raise` on
a falsy final `xml_url`. (The network download that follows a successful
resolution is outside this model.) Note `xml_url` is only ever truthy right
after the inner `break` that also triggers the outer `break`, so carrying no
accumulator is faithful: a falsy assignment leaves the guard false exactly
like no assignment. -/
def fetch_xml_resolve : List FeedEntry → Except String String
  | [] => .error noXmlLinkMsg
  | e :: rest =>
    match entryCandidate e with
    | some (some s) => if s ≠ "" then .ok s else fetch_xml_resolve rest
    | some none => fetch_xml_resolve rest
    | none => fetch_xml_resolve rest

/-- The resolver the spec's words describe (kept separate to compare against
the code): scan all enclosures of all entries in order and return the href
of the first one whose declared media type is XML, failing only when no
XML-typed enclosure exists at all. -/
def specResolve (entries : List FeedEntry) : Except String (Option String) :=
  match (entries.flatMap (·.enclosures)).find? (fun enc => enc.type = some "application/xml") with
  | some enc => .ok enc.href
  | none => .error noXmlLinkMsg

/-! ## The filter/query surface -/

/-- `df[df['Land'].isin(land_filter)]`, applied only when the selection is
non-empty (`if st.session_state["land_filter"]:`). -/
def applyLand (df : List SanctionRecord) (sel : List String) : List SanctionRecord :=
  if sel = [] then df else df.filter (fun r => sel.contains r.land)

/-- `df[df['Typ'] == typ]`, applied only when the selection is not the
`"Alle"` sentinel. -/
def applyTyp (df : List SanctionRecord) (typ : String) : List SanctionRecord :=
  if typ = "Alle" then df else df.filter (fun r => r.typ = typ)

/-- `sorted((df or country-filtered df)['Typ'].unique())`: the distinct type
labels of the country-filtered subset, sorted ascending. -/
def availableTypes (df : List SanctionRecord) (landSel : List String) : List String :=
  (((applyLand df landSel).map (·.typ)).dedup).mergeSort (· ≤ ·)

/-- `options = ["Alle"] + types`. -/
def typOptions (df : List SanctionRecord) (landSel : List String) : List String :=
  "Alle" :: availableTypes df landSel

/-- The stale-selection check: when the previously selected type label is no
longer among the options, a warning message is produced and the selection
resets to `"Alle"`; otherwise the selection stands and no warning is shown. -/
def resolveTypFilter (df : List SanctionRecord) (landSel : List String)
    (selected : String) : String × Option String :=
  if selected ∈ typOptions df landSel then (selected, none)
  else ("Alle", some ("Keine «" ++ selected ++ "» im gewählten Land verfügbar."))

/-- The name-search block: with at least 3 characters the rows whose `Name`
matches the pattern (pandas `str.contains(search, case=False, na=False)`,
i.e. a case-insensitive regex search; `na=False` is moot since every name is
a string) are kept; with 1–2 characters nothing is filtered and the advisory
`st.info` is shown (the Bool); with an empty search nothing happens. -/
def searchFilter (df : List SanctionRecord) (s : String) : List SanctionRecord × Bool :=
  if s.data.length ≥ 3 then
    (df.filter (fun r => pyRegexSearch s r.name), false)
  else if 0 < s.data.length then (df, true)
  else (df, false)

/-- One filter drawn from the three the UI applies. -/
inductive FilterKind where
  | land (sel : List String)
  | typ (t : String)
  | search (s : String)

/-- Application of a single filter to a record set (for the name search,
the record-set component of `searchFilter`). -/
def applyFilter : FilterKind → List SanctionRecord → List SanctionRecord
  | .land sel, df => applyLand df sel
  | .typ t, df => applyTyp df t
  | .search s, df => (searchFilter df s).1

/-- The full conjunctive pipeline of the source: country filter, then type
filter, then name search. -/
def applyFilters (df : List SanctionRecord) (landSel : List String)
    (typ : String) (search : String) : List SanctionRecord × Bool :=
  searchFilter (applyTyp (applyLand df landSel) typ) search

/-! ## Per-field value-or-default specification

`fieldDefaults r e` says each of the eight fields of `r` holds either the
value extracted from the entity `e` or that field's documented default. -/

def fieldDefaults (r : SanctionRecord) (e : XmlElem) : Prop :=
  ((∃ v, getAttr e "euReferenceNumber" = some v ∧ r.euRef = v) ∨
    (getAttr e "euReferenceNumber" = none ∧ r.euRef = "Unbekannt")) ∧
  ((∃ na v, findChild e (nsTag "nameAlias") = some na ∧
      getAttr na "wholeName" = some v ∧ r.name = v) ∨
    r.name = "Unbekannt") ∧
  ((∃ s v, findChild e (nsTag "subjectType") = some s ∧ getAttr s "code" = some v ∧
      r.typ = classifyCode v) ∨
    r.typ = "Unbekannt") ∧
  ((∃ a v, findChild e (nsTag "address") = some a ∧
      getAttr a "countryDescription" = some v ∧ pyStrip v ≠ "" ∧
      r.land = pyTitle (pyStrip v)) ∨
    r.land = "Unbekannt") ∧
  ((∃ g v, findChild e (nsTag "regulation") = some g ∧
      getAttr g "publicationDate" = some v ∧ r.pubDate = v) ∨
    r.pubDate = "") ∧
  ((∃ g v, findChild e (nsTag "regulation") = some g ∧
      getAttr g "programme" = some v ∧ r.programm = v) ∨
    r.programm = "Unbekannt") ∧
  ((∃ na rem t, findChild e (nsTag "nameAlias") = some na ∧
      findChild na (nsTag "remark") = some rem ∧ rem.text = some t ∧
      r.bemerkung = t) ∨
    r.bemerkung = "") ∧
  ((∃ g u t, findChild e (nsTag "regulation") = some g ∧
      findChild g (nsTag "publicationUrl") = some u ∧ u.text = some t ∧
      t ≠ "" ∧ r.pubUrl = pyStrip t) ∨
    r.pubUrl = "")

/-! ## Concrete sample inputs (used by witnesses and counterexamples) -/

/-- A fully populated `sanctionEntity`. -/
def sampleEntityFull : XmlElem :=
  .mk (nsTag "sanctionEntity") [("euReferenceNumber", "EU.1.1")] none
    [ .mk (nsTag "nameAlias") [("wholeName", "Max Mustermann")] none
        [.mk (nsTag "remark") [] (some "listed 2023") []],
      .mk (nsTag "subjectType") [("code", "person")] none [],
      .mk (nsTag "regulation") [("publicationDate", "2023-01-01"), ("programme", "UKR")] none
        [.mk (nsTag "publicationUrl") [] (some " http://eur-lex/1 ") []],
      .mk (nsTag "address") [("countryDescription", " germany ")] none [] ]

/-- A `sanctionEntity` with no attributes and no children at all. -/
def sampleEntityBare : XmlElem :=
  .mk (nsTag "sanctionEntity") [] none []

/-- A document with one full and one bare entity. -/
def sampleDoc : XmlElem :=
  .mk (nsTag "export") [] none [sampleEntityFull, sampleEntityBare]

/-- A well-formed document containing no `sanctionEntity` at all. -/
def emptyDoc : XmlElem :=
  .mk (nsTag "export") [] none []

/-- An address element with a whitespace-only `countryDescription`. -/
def wsAddr : XmlElem :=
  .mk (nsTag "address") [("countryDescription", "   ")] none []

/-- An entity whose address has a whitespace-only `countryDescription`. -/
def wsAddrEntity : XmlElem :=
  .mk (nsTag "sanctionEntity") [] none [wsAddr]

/-- A record whose name is `"abc"`. -/
def searchDemoRec : SanctionRecord :=
  ⟨"EU.2.2", "abc", "Person", "Unbekannt", "", "Unbekannt", "", ""⟩

/-- A record whose name is `"Anna Beck"`, type `Entity`, country `Germany`. -/
def searchDemoRec2 : SanctionRecord :=
  ⟨"EU.3.3", "Anna Beck", "Entity", "Germany", "", "UKR", "", ""⟩

/-- An XML-typed enclosure that carries no href. -/
def encXmlNoHref : Enclosure := ⟨some "application/xml", none⟩

/-- An XML-typed enclosure with a usable href. -/
def encXmlB : Enclosure := ⟨some "application/xml", some "https://example.org/b.xml"⟩

/-- A feed whose first entry's XML enclosure has no href and whose second
entry's XML enclosure does. -/
def feedEx : List FeedEntry := [⟨[encXmlNoHref]⟩, ⟨[encXmlB]⟩]

/-! ## Helper lemmas: characters and Python string methods -/

lemma toLower_elim (c d : Char) (h : c.toLower = d) :
    c = d ∨ ∃ n : ℕ, 65 ≤ n ∧ n ≤ 90 ∧ c = Char.ofNat n ∧ d = Char.ofNat (n + 32) := by
  have h' := h
  simp only [Char.toLower] at h'
  split at h'
  · rename_i hr
    exact Or.inr ⟨c.toNat, hr.1, hr.2, (Char.ofNat_toNat c).symm, h'.symm⟩
  · exact Or.inl h'

lemma toLower_char_facts (c : Char) (h : (c.toLower).isLower = true) :
    c.isAlpha = true ∧ c.toUpper = (c.toLower).toUpper ∧ (c.toLower).toLower = c.toLower := by
  rcases toLower_elim c c.toLower rfl with h1 | ⟨n, h1, h2, hc, hd⟩
  · rw [← h1] at h ⊢
    rw [← h1]
    refine ⟨?_, rfl, ?_⟩
    · simp [Char.isAlpha, h]
    · rfl
  · rw [hc] at hd ⊢
    rw [hd]
    interval_cases n <;> decide

lemma titleAux_map_toLower (l : List Char) (h : ∀ c ∈ l, (c.toLower).isLower = true) :
    ∀ b, titleAux b l = titleAux b (l.map Char.toLower) := by
  induction l with
  | nil => intro b; rfl
  | cons c cs ih =>
    intro b
    have hc := toLower_char_facts c (h c (by simp))
    have hca : (c.toLower).isAlpha = true := by
      have hl := h c (by simp)
      simp [Char.isAlpha, hl]
    have ihx := ih (fun x hx => h x (List.mem_cons_of_mem _ hx)) true
    cases b <;>
      simp only [List.map_cons, titleAux, hc.1, hca, if_true, if_false, ihx,
        hc.2.1, hc.2.2]

lemma pyTitle_eq_of_lowerStr (s t : String) (h : lowerStr s = t)
    (ht : ∀ c ∈ t.data, c.isLower = true) : pyTitle s = pyTitle t := by
  have hdata : s.data.map Char.toLower = t.data := by
    rw [← h]; rfl
  have hmem : ∀ c ∈ s.data, (c.toLower).isLower = true := by
    intro c hcmem
    exact ht _ (hdata ▸ List.mem_map_of_mem Char.toLower hcmem)
  show (⟨titleAux false s.data⟩ : String) = ⟨titleAux false t.data⟩
  rw [titleAux_map_toLower s.data hmem false, hdata]

lemma pyStrip_of_all_space (v : String) (h : ∀ c ∈ v.data, pyIsSpace c = true) :
    pyStrip v = "" := by
  unfold pyStrip
  have h1 : v.data.dropWhile pyIsSpace = [] := List.dropWhile_eq_nil_iff.mpr h
  rw [h1]
  rfl

/-! ## Helper lemmas: the regex fragment versus literal substring search -/

lemma matchesAt_no_dot (ps : List Char) (hp : ∀ p ∈ ps, p ≠ '.') :
    ∀ cs, matchesAt ps cs = (ps.map Char.toLower).isPrefixOf (cs.map Char.toLower) := by
  induction ps with
  | nil => intro cs; cases cs <;> rfl
  | cons p ps ih =>
    intro cs
    cases cs with
    | nil => rfl
    | cons c cs =>
      have hp0 : (p = '.') = False := by
        simp [hp p (by simp)]
      simp only [matchesAt, List.map_cons, List.isPrefixOf, hp0,
        ih (fun x hx => hp x (List.mem_cons_of_mem _ hx)) cs]
      congr 1

lemma pyRegexSearch_eq_containsCI (pat hay : String)
    (h : ∀ c ∈ pat.data, isRegexMeta c = false) :
    pyRegexSearch pat hay = containsCI hay pat := by
  have hdot : ∀ p ∈ pat.data, p ≠ '.' := by
    intro p hp hcontra
    have := h p hp
    rw [hcontra] at this
    simp [isRegexMeta] at this
  unfold pyRegexSearch containsCI
  simp only [List.length_map]
  have hfun : (fun i => matchesAt pat.data (hay.data.drop i)) =
      (fun i => (pat.data.map Char.toLower).isPrefixOf ((hay.data.map Char.toLower).drop i)) := by
    funext i
    rw [matchesAt_no_dot pat.data hdot (hay.data.drop i), List.map_drop]
  rw [hfun]

/-! ## Helper lemmas: the feed-resolver loop -/

lemma fetch_xml_resolve_eq_findSome (entries : List FeedEntry) :
    fetch_xml_resolve entries =
      match entries.findSome? goodCandidate with
      | some u => .ok u
      | none => .error noXmlLinkMsg := by
  induction entries with
  | nil => rfl
  | cons e rest ih =>
    rw [List.findSome?_cons]
    unfold fetch_xml_resolve
    cases hc : entryCandidate e with
    | none => simp [goodCandidate, hc, ih]
    | some h =>
      cases h with
      | none => simp [goodCandidate, hc, truthyHref, ih]
      | some s =>
        by_cases hs : s = ""
        · subst hs
          simp [goodCandidate, hc, truthyHref, ih]
        · simp [goodCandidate, hc, truthyHref, hs, ih]

lemma fetch_xml_resolve_error_iff (entries : List FeedEntry) :
    fetch_xml_resolve entries = .error noXmlLinkMsg ↔
      ∀ x ∈ entries, goodCandidate x = none := by
  rw [fetch_xml_resolve_eq_findSome, ← List.findSome?_eq_none_iff]
  cases h : entries.findSome? goodCandidate <;> simp

/-! ## Helper lemmas: every extracted record is value-or-default -/

lemma euRef_value_or_default (e : XmlElem) :
    (∃ v, getAttr e "euReferenceNumber" = some v ∧ extractEuRef e = v) ∨
      (getAttr e "euReferenceNumber" = none ∧ extractEuRef e = "Unbekannt") := by
  cases h : getAttr e "euReferenceNumber" with
  | none => exact Or.inr ⟨rfl, by unfold extractEuRef; rw [h]; rfl⟩
  | some v => exact Or.inl ⟨v, rfl, by unfold extractEuRef; rw [h]; rfl⟩

lemma name_value_or_default (e : XmlElem) :
    (∃ na v, findChild e (nsTag "nameAlias") = some na ∧
      getAttr na "wholeName" = some v ∧ extractName e = v) ∨
      extractName e = "Unbekannt" := by
  cases h : findChild e (nsTag "nameAlias") with
  | none => exact Or.inr (by unfold extractName; rw [h])
  | some na =>
    cases h2 : getAttr na "wholeName" with
    | none => exact Or.inr (by unfold extractName; rw [h]; dsimp only; rw [h2]; rfl)
    | some v =>
      exact Or.inl ⟨na, v, rfl, h2, by unfold extractName; rw [h]; dsimp only; rw [h2]; rfl⟩

lemma typ_value_or_default (e : XmlElem) :
    (∃ s v, findChild e (nsTag "subjectType") = some s ∧ getAttr s "code" = some v ∧
      extractTyp e = classifyCode v) ∨ extractTyp e = "Unbekannt" := by
  cases h : findChild e (nsTag "subjectType") with
  | none =>
    refine Or.inr ?_
    have hx : extractCode e = "Unbekannt" := by unfold extractCode; rw [h]
    unfold extractTyp
    rw [hx]
    decide
  | some s =>
    cases h2 : getAttr s "code" with
    | none =>
      refine Or.inr ?_
      have hx : extractCode e = "Unbekannt" := by
        unfold extractCode; rw [h]; dsimp only; rw [h2]; rfl
      unfold extractTyp
      rw [hx]
      decide
    | some v =>
      refine Or.inl ⟨s, v, rfl, h2, ?_⟩
      have hx : extractCode e = v := by
        unfold extractCode; rw [h]; dsimp only; rw [h2]; rfl
      unfold extractTyp
      rw [hx]

lemma land_value_or_default (e : XmlElem) :
    (∃ a v, findChild e (nsTag "address") = some a ∧
      getAttr a "countryDescription" = some v ∧ pyStrip v ≠ "" ∧
      extractLand e = pyTitle (pyStrip v)) ∨ extractLand e = "Unbekannt" := by
  cases h : findChild e (nsTag "address") with
  | none => exact Or.inr (by unfold extractLand; rw [h])
  | some a =>
    cases h2 : getAttr a "countryDescription" with
    | none =>
      refine Or.inr ?_
      unfold extractLand
      rw [h]
      dsimp only
      rw [h2]
      rfl
    | some v =>
      by_cases h3 : pyStrip v ≠ ""
      · refine Or.inl ⟨a, v, rfl, h2, h3, ?_⟩
        unfold extractLand
        rw [h]
        dsimp only
        rw [h2]
        dsimp only [Option.getD]
        rw [if_pos h3]
      · refine Or.inr ?_
        unfold extractLand
        rw [h]
        dsimp only
        rw [h2]
        dsimp only [Option.getD]
        rw [if_neg h3]

lemma pubDate_value_or_default (e : XmlElem) :
    (∃ g v, findChild e (nsTag "regulation") = some g ∧
      getAttr g "publicationDate" = some v ∧ extractPubDate e = v) ∨
      extractPubDate e = "" := by
  cases h : findChild e (nsTag "regulation") with
  | none => exact Or.inr (by unfold extractPubDate; rw [h])
  | some g =>
    cases h2 : getAttr g "publicationDate" with
    | none => exact Or.inr (by unfold extractPubDate; rw [h]; dsimp only; rw [h2]; rfl)
    | some v =>
      exact Or.inl ⟨g, v, rfl, h2, by unfold extractPubDate; rw [h]; dsimp only; rw [h2]; rfl⟩

lemma programm_value_or_default (e : XmlElem) :
    (∃ g v, findChild e (nsTag "regulation") = some g ∧
      getAttr g "programme" = some v ∧ extractProgramm e = v) ∨
      extractProgramm e = "Unbekannt" := by
  cases h : findChild e (nsTag "regulation") with
  | none => exact Or.inr (by unfold extractProgramm; rw [h])
  | some g =>
    cases h2 : getAttr g "programme" with
    | none => exact Or.inr (by unfold extractProgramm; rw [h]; dsimp only; rw [h2]; rfl)
    | some v =>
      exact Or.inl ⟨g, v, rfl, h2, by unfold extractProgramm; rw [h]; dsimp only; rw [h2]; rfl⟩

lemma bemerkung_value_or_default (e : XmlElem) :
    (∃ na rem t, findChild e (nsTag "nameAlias") = some na ∧
      findChild na (nsTag "remark") = some rem ∧ rem.text = some t ∧
      extractBemerkung e = t) ∨ extractBemerkung e = "" := by
  cases h : findChild e (nsTag "nameAlias") with
  | none => exact Or.inr (by unfold extractBemerkung; rw [h])
  | some na =>
    cases h2 : findChild na (nsTag "remark") with
    | none => exact Or.inr (by unfold extractBemerkung; rw [h]; dsimp only; rw [h2])
    | some rem =>
      cases h3 : rem.text with
      | none =>
        exact Or.inr (by
          unfold extractBemerkung; rw [h]; dsimp only; rw [h2]; dsimp only; rw [h3]; rfl)
      | some t =>
        exact Or.inl ⟨na, rem, t, rfl, h2, h3, by
          unfold extractBemerkung; rw [h]; dsimp only; rw [h2]; dsimp only; rw [h3]; rfl⟩

lemma pubUrl_value_or_default (e : XmlElem) :
    (∃ g u t, findChild e (nsTag "regulation") = some g ∧
      findChild g (nsTag "publicationUrl") = some u ∧ u.text = some t ∧
      t ≠ "" ∧ extractPubUrl e = pyStrip t) ∨ extractPubUrl e = "" := by
  cases h : findChild e (nsTag "regulation") with
  | none => exact Or.inr (by unfold extractPubUrl; rw [h])
  | some g =>
    cases h2 : findChild g (nsTag "publicationUrl") with
    | none => exact Or.inr (by unfold extractPubUrl; rw [h]; dsimp only; rw [h2])
    | some u =>
      cases h3 : u.text with
      | none =>
        exact Or.inr (by
          unfold extractPubUrl; rw [h]; dsimp only; rw [h2]; dsimp only; rw [h3])
      | some t =>
        by_cases h4 : t ≠ ""
        · refine Or.inl ⟨g, u, t, rfl, h2, h3, h4, ?_⟩
          unfold extractPubUrl
          rw [h]
          dsimp only
          rw [h2]
          dsimp only
          rw [h3]
          dsimp only
          rw [if_pos h4]
        · refine Or.inr ?_
          unfold extractPubUrl
          rw [h]
          dsimp only
          rw [h2]
          dsimp only
          rw [h3]
          dsimp only
          rw [if_neg h4]

lemma fieldDefaults_extractEntity (e : XmlElem) : fieldDefaults (extractEntity e) e :=
  ⟨euRef_value_or_default e, name_value_or_default e, typ_value_or_default e,
    land_value_or_default e, pubDate_value_or_default e, programm_value_or_default e,
    bemerkung_value_or_default e, pubUrl_value_or_default e⟩

/-! ## Claim theorems -/

/-- **C1**: for every well-formed XML input containing at least one
`sanctionEntity`, extraction succeeds (no per-entity condition can make it
raise), produces exactly one record per matched entity, and each record has
all eight fields populated with either the extracted value or its documented
default (`fieldDefaults`). -/
theorem extractor_fields_populated (input : Option XmlElem) (root : XmlElem)
    (hin : input = some root) (hne : findEntities root ≠ []) :
    ∃ rs, lade_sanktionen input = .ok rs ∧
      rs.length = (findEntities root).length ∧
      ∀ i (hi : i < rs.length) (hj : i < (findEntities root).length),
        fieldDefaults (rs.get ⟨i, hi⟩) ((findEntities root).get ⟨i, hj⟩) := by
  subst hin
  refine ⟨(findEntities root).map extractEntity, ?_, by simp, ?_⟩
  · unfold lade_sanktionen
    have hf : ((findEntities root).map extractEntity).isEmpty = false := by
      rw [List.isEmpty_eq_false]
      simpa using hne
    simp [hf]
  · intro i hi hj
    rw [List.get_map]
    exact fieldDefaults_extractEntity _

/-- C1 witness: the theorem applied to `sampleDoc`, whose two entities
include one with no attributes or children at all. -/
theorem extractor_fields_populated_witness :
    ∃ rs, lade_sanktionen (some sampleDoc) = .ok rs ∧
      rs.length = (findEntities sampleDoc).length ∧
      ∀ i (hi : i < rs.length) (hj : i < (findEntities sampleDoc).length),
        fieldDefaults (rs.get ⟨i, hi⟩) ((findEntities sampleDoc).get ⟨i, hj⟩) :=
  extractor_fields_populated (some sampleDoc) sampleDoc rfl
    (fun h => absurd (congrArg List.length h) (by decide))

/-- **C2** (code bug): on an unparsable byte stream the extractor does fail
with `ParseError`, but on a well-formed document with zero `sanctionEntity`
elements it does *not* return an empty sequence: `pd.DataFrame([])` has no
`Land` column, so `df['Land'].fillna` raises `KeyError`. -/
theorem extractor_empty_document_raises :
    lade_sanktionen none = .error .parseError ∧
    lade_sanktionen (some emptyDoc) = .error .keyError := by
  exact ⟨rfl, rfl⟩

/-- **C3** counterexample: with search string `"a.c"` (length 3) the code
keeps the record named `"abc"`, because pandas `str.contains` treats the
pattern as a regular expression by default and `.` matches `b` — yet
`"a.c"` is not a case-insensitive substring of `"abc"`, so "keeps exactly
those records whose name contains the string as a case-insensitive
substring" fails at this input. -/
theorem name_search_substring_counterexample :
    (searchFilter [searchDemoRec] "a.c").1 = [searchDemoRec] ∧
    containsCI searchDemoRec.name "a.c" = false :=
  ⟨rfl, rfl⟩

/-- **C3** (amended): the length gating is as claimed (≥ 3 filters, 1–2
advisory without filtering, empty no-op), but the match is a
case-insensitive *regular-expression* search on the name; only for search
strings free of regex metacharacters does it coincide with case-insensitive
substring containment. -/
theorem name_search_behaviour (df : List SanctionRecord) (s : String) :
    (s.data.length = 0 → searchFilter df s = (df, false)) ∧
    (0 < s.data.length → s.data.length < 3 → searchFilter df s = (df, true)) ∧
    (3 ≤ s.data.length → (searchFilter df s).2 = false ∧
      ∀ r, r ∈ (searchFilter df s).1 ↔ r ∈ df ∧ pyRegexSearch s r.name = true) ∧
    (3 ≤ s.data.length → (∀ c ∈ s.data, isRegexMeta c = false) →
      ∀ r, r ∈ (searchFilter df s).1 ↔ r ∈ df ∧ containsCI r.name s = true) := by
  refine ⟨?_, ?_, ?_, ?_⟩
  · intro h0
    unfold searchFilter
    rw [if_neg (by omega), if_neg (by omega)]
  · intro h1 h2
    unfold searchFilter
    rw [if_neg (by omega), if_pos h1]
  · intro h3
    unfold searchFilter
    rw [if_pos h3]
    exact ⟨rfl, fun r => by simp [List.mem_filter]⟩
  · intro h3 hm r
    unfold searchFilter
    rw [if_pos h3]
    simp [List.mem_filter, pyRegexSearch_eq_containsCI s r.name hm]

/-- C3 witness: the amended theorem applied to the record named
`"Anna Beck"` and the metacharacter-free search string `"ann"`. -/
theorem name_search_behaviour_witness :
    searchDemoRec2 ∈ (searchFilter [searchDemoRec2] "ann").1 ↔
      searchDemoRec2 ∈ [searchDemoRec2] ∧ containsCI searchDemoRec2.name "ann" = true :=
  (name_search_behaviour [searchDemoRec2] "ann").2.2.2 (by decide) (by decide) searchDemoRec2

/-- **C4**: the classification of the subject-type code: a case-insensitive
match of "person" yields Person; a case-insensitive match of "enterprise"
or of "entity" yields Entity (the latter because title-casing any case
variant of "entity" produces exactly "Entity"); any other code passes
through as its own title-cased label; and when the `subjectType` element or
its `code` attribute is missing, the `"Unbekannt"` placeholder results. -/
theorem subject_type_classification (e stype : XmlElem) (code : String) :
    (lowerStr code = "person" → classifyCode code = "Person") ∧
    (lowerStr code = "enterprise" ∨ lowerStr code = "entity" →
      classifyCode code = "Entity") ∧
    (lowerStr code ≠ "person" → lowerStr code ≠ "enterprise" →
      classifyCode code = pyTitle code) ∧
    (findChild e (nsTag "subjectType") = none → extractTyp e = "Unbekannt") ∧
    (findChild e (nsTag "subjectType") = some stype → getAttr stype "code" = none →
      extractTyp e = "Unbekannt") := by
  refine ⟨?_, ?_, ?_, ?_, ?_⟩
  · intro h
    unfold classifyCode
    rw [if_pos h]
  · intro h
    rcases h with h | h
    · unfold classifyCode
      rw [if_neg (by rw [h]; decide), if_pos h]
    · unfold classifyCode
      rw [if_neg (by rw [h]; decide), if_neg (by rw [h]; decide),
        pyTitle_eq_of_lowerStr code "entity" h (by decide)]
      decide
  · intro h1 h2
    unfold classifyCode
    rw [if_neg h1, if_neg h2]
  · intro h
    have hx : extractCode e = "Unbekannt" := by unfold extractCode; rw [h]
    unfold extractTyp
    rw [hx]
    decide
  · intro h h2
    have hx : extractCode e = "Unbekannt" := by
      unfold extractCode; rw [h]; dsimp only; rw [h2]; rfl
    unfold extractTyp
    rw [hx]
    decide

/-- C4 witness: the mixed-case code `"eNtItY"` classifies as Entity, and an
entity with no `subjectType` child gets the placeholder. -/
theorem subject_type_classification_witness :
    classifyCode "eNtItY" = "Entity" ∧ extractTyp sampleEntityBare = "Unbekannt" :=
  ⟨(subject_type_classification sampleEntityBare sampleEntityBare "eNtItY").2.1
      (Or.inr (by decide)),
    (subject_type_classification sampleEntityBare sampleEntityBare "eNtItY").2.2.2.1 rfl⟩

/-- **C5** counterexample: in `feedEx` the first XML-typed attachment
across all entries (the first entry's only enclosure) carries no href, yet
the resolver returns the *second* entry's href instead of that first
attachment's (absent) href, and does not fail either — `specResolve`, the
claim's literal reading, disagrees with the code here. -/
theorem feed_resolver_first_href_counterexample :
    fetch_xml_resolve feedEx = .ok "https://example.org/b.xml" ∧
    specResolve feedEx = .ok none :=
  ⟨rfl, rfl⟩

/-- **C5** (amended): the resolver scans entries in order but considers only
the *first* XML-typed attachment of each entry; it returns the first such
attachment's href that is present and non-empty, and fails with the
no-XML-link `RuntimeError` message (the spec's `FeedResolutionError`)
exactly when no entry contributes one. -/
theorem feed_resolver_returns_first_good_candidate (entries : List FeedEntry) :
    fetch_xml_resolve entries =
      match entries.findSome? goodCandidate with
      | some u => .ok u
      | none => .error noXmlLinkMsg :=
  fetch_xml_resolve_eq_findSome entries

/-- **C6**: the selectable type labels are exactly the `"Alle"` sentinel
plus the distinct `Typ` values of the country-filtered subset; a previously
selected label that is no longer an option is a soft condition — a warning
message is produced, the selection resets to `"Alle"`, and the query still
returns the (country-filtered) record set unchanged; a valid selection
passes through with no warning. -/
theorem typ_options_recompute_and_soft_reset (df : List SanctionRecord)
    (landSel : List String) (selected : String) :
    (∀ l, l ∈ typOptions df landSel ↔
      l = "Alle" ∨ ∃ r ∈ applyLand df landSel, r.typ = l) ∧
    (selected ∉ typOptions df landSel →
      resolveTypFilter df landSel selected =
        ("Alle", some ("Keine «" ++ selected ++ "» im gewählten Land verfügbar.")) ∧
      applyTyp (applyLand df landSel) "Alle" = applyLand df landSel) ∧
    (selected ∈ typOptions df landSel →
      resolveTypFilter df landSel selected = (selected, none)) := by
  refine ⟨?_, ?_, ?_⟩
  · intro l
    simp [typOptions, availableTypes, List.mem_mergeSort, List.mem_dedup,
      List.mem_map, eq_comm]
  · intro hni
    refine ⟨?_, ?_⟩
    · unfold resolveTypFilter
      rw [if_neg hni]
    · unfold applyTyp
      rw [if_pos rfl]
  · intro hi
    unfold resolveTypFilter
    rw [if_pos hi]

/-- C6 witness: the record set has only type `"Person"`, so the stale
selection `"Entity"` resets softly to `"Alle"` and the query result is the
unfiltered set. -/
theorem typ_options_recompute_witness :
    resolveTypFilter [searchDemoRec] [] "Entity" =
      ("Alle", some "Keine «Entity» im gewählten Land verfügbar.") ∧
    applyTyp (applyLand [searchDemoRec] []) "Alle" = applyLand [searchDemoRec] [] :=
  (typ_options_recompute_and_soft_reset [searchDemoRec] [] "Entity").2.1 (by
    simp [typOptions, availableTypes, List.mem_mergeSort, List.mem_dedup,
      applyLand, searchDemoRec])

/-- **C7**: each of the three filters (country, type, name search) is a pure
narrowing: the result is a sublist of the input (so every kept record is a
member, none is added or modified), and applying the same filter twice
equals applying it once. -/
theorem filters_narrow_and_idempotent (f : FilterKind) (S : List SanctionRecord) :
    (applyFilter f S).Sublist S ∧
    (∀ r ∈ applyFilter f S, r ∈ S) ∧
    applyFilter f (applyFilter f S) = applyFilter f S := by
  have hsub : (applyFilter f S).Sublist S := by
    cases f with
    | land sel =>
      simp only [applyFilter, applyLand]
      split
      · exact List.Sublist.refl S
      · exact List.filter_sublist S
    | typ t =>
      simp only [applyFilter, applyTyp]
      split
      · exact List.Sublist.refl S
      · exact List.filter_sublist S
    | search s =>
      simp only [applyFilter, searchFilter]
      split
      · exact List.filter_sublist S
      · split
        · exact List.Sublist.refl S
        · exact List.Sublist.refl S
  refine ⟨hsub, fun r hr => hsub.subset hr, ?_⟩
  cases f with
  | land sel =>
    by_cases hsel : sel = []
    · simp [applyFilter, applyLand, hsel]
    · simp [applyFilter, applyLand, hsel, List.filter_filter]
  | typ t =>
    by_cases ht : t = "Alle"
    · simp [applyFilter, applyTyp, ht]
    · simp [applyFilter, applyTyp, ht, List.filter_filter]
  | search s =>
    by_cases h3 : 3 ≤ s.length
    · simp [applyFilter, searchFilter, h3, List.filter_filter, Bool.and_self]
    · simp [applyFilter, searchFilter, h3, apply_ite Prod.fst]

/-- **C8**: extraction is a pure, deterministic function of the parsed
input, and the successful output is exactly the document-order entity list
mapped through `extractEntity`: one record per entity, position for
position. -/
theorem extraction_deterministic_order_preserving (input : Option XmlElem)
    (root : XmlElem) (h : input = some root) (rs : List SanctionRecord)
    (hok : lade_sanktionen input = .ok rs) :
    lade_sanktionen input = lade_sanktionen input ∧
    rs = (findEntities root).map extractEntity ∧
    rs.length = (findEntities root).length ∧
    ∀ i (hi : i < rs.length) (hj : i < (findEntities root).length),
      rs.get ⟨i, hi⟩ = extractEntity ((findEntities root).get ⟨i, hj⟩) := by
  subst h
  have hrs : rs = (findEntities root).map extractEntity := by
    unfold lade_sanktionen at hok
    dsimp only at hok
    by_cases he : ((findEntities root).map extractEntity).isEmpty = true
    · rw [if_pos he] at hok
      simp at hok
    · rw [if_neg he] at hok
      injection hok with h2
      exact h2.symm
  subst hrs
  refine ⟨rfl, rfl, by simp, ?_⟩
  intro i hi hj
  rw [List.get_map]

/-- C8 witness: the theorem applied to `sampleDoc`, whose extraction
succeeds by computation. -/
theorem extraction_deterministic_witness :
    lade_sanktionen (some sampleDoc) = lade_sanktionen (some sampleDoc) ∧
    (findEntities sampleDoc).map extractEntity = (findEntities sampleDoc).map extractEntity ∧
    ((findEntities sampleDoc).map extractEntity).length = (findEntities sampleDoc).length ∧
    ∀ i (hi : i < ((findEntities sampleDoc).map extractEntity).length)
      (hj : i < (findEntities sampleDoc).length),
      ((findEntities sampleDoc).map extractEntity).get ⟨i, hi⟩ =
        extractEntity ((findEntities sampleDoc).get ⟨i, hj⟩) :=
  extraction_deterministic_order_preserving (some sampleDoc) sampleDoc rfl
    ((findEntities sampleDoc).map extractEntity) rfl

/-- **C9**: with an `address` child present, a missing, empty, or
whitespace-only `countryDescription` yields the `"Unbekannt"` placeholder —
the same value as when `address` is absent entirely — and otherwise the
country is the attribute value stripped of surrounding whitespace and
title-cased. (The empty attribute is the vacuous case of the
whitespace-only rule.) -/
theorem country_extraction_rules (e addr : XmlElem)
    (haddr : findChild e (nsTag "address") = some addr) :
    (getAttr addr "countryDescription" = none → extractLand e = "Unbekannt") ∧
    (∀ v, getAttr addr "countryDescription" = some v →
      (∀ c ∈ v.data, pyIsSpace c = true) → extractLand e = "Unbekannt") ∧
    (∀ v, getAttr addr "countryDescription" = some v → pyStrip v ≠ "" →
      extractLand e = pyTitle (pyStrip v)) ∧
    (∀ e2 : XmlElem, findChild e2 (nsTag "address") = none →
      extractLand e2 = "Unbekannt") := by
  refine ⟨?_, ?_, ?_, ?_⟩
  · intro h2
    unfold extractLand
    rw [haddr]
    dsimp only
    rw [h2]
    rfl
  · intro v hv hws
    have hs : pyStrip v = "" := pyStrip_of_all_space v hws
    unfold extractLand
    rw [haddr]
    dsimp only
    rw [hv]
    dsimp only [Option.getD]
    rw [if_neg (fun hcon => hcon hs)]
  · intro v hv hne
    unfold extractLand
    rw [haddr]
    dsimp only
    rw [hv]
    dsimp only [Option.getD]
    rw [if_pos hne]
  · intro e2 h2
    unfold extractLand
    rw [h2]

/-- C9 witness: the whitespace-only `countryDescription` of `wsAddrEntity`
falls back to the placeholder. -/
theorem country_extraction_rules_witness :
    extractLand wsAddrEntity = "Unbekannt" :=
  (country_extraction_rules wsAddrEntity wsAddr rfl).2.1 "   " rfl (by decide)

/-- **C10**: when an entry's first XML-typed attachment carries no href,
the resolver neither returns nor fails at that attachment — the rest of
that entry's attachments are skipped and scanning continues with the
subsequent entries — and the no-XML-link error occurs exactly when no
entry yields (under this per-entry scan) an XML-typed attachment with a
usable href. -/
theorem feed_resolver_skips_hrefless_attachment (e : FeedEntry)
    (rest : List FeedEntry) (h : entryCandidate e = some none) :
    fetch_xml_resolve (e :: rest) = fetch_xml_resolve rest ∧
    (fetch_xml_resolve (e :: rest) = .error noXmlLinkMsg ↔
      ∀ x ∈ e :: rest, goodCandidate x = none) := by
  constructor
  · show (match entryCandidate e with
      | some (some s) => if s ≠ "" then Except.ok s else fetch_xml_resolve rest
      | some none => fetch_xml_resolve rest
      | none => fetch_xml_resolve rest) = fetch_xml_resolve rest
    rw [h]
  · exact fetch_xml_resolve_error_iff _

/-- C10 witness: the theorem applied to `feedEx`, whose first entry's XML
enclosure has no href; resolution continues with the second entry. -/
theorem feed_resolver_skips_hrefless_attachment_witness :
    fetch_xml_resolve feedEx = fetch_xml_resolve [⟨[encXmlB]⟩] :=
  (feed_resolver_skips_hrefless_attachment ⟨[encXmlNoHref]⟩ [⟨[encXmlB]⟩]
    (by decide)).1

end Sanctions
